import Mathlib

/-!
Verification of the IEC 60870-5-104 session engine of pydatacoll
(src/pydatacoll/protocols/iec104/device.py) and of the term-creation
handler of the REST facade (src/pydatacoll/api_server.py).

The Python session object is modelled as an explicit state record
(`Session`); every coroutine the claims touch is translated to a pure
state-passing function returning the successor state together with the
list of frames written to the socket.  Exceptions raised inside the try
blocks of the source (attribute errors on missing ASDUs, index errors on
empty data arrays) are modelled by the handler the source installs:
every except clause of the relevant coroutines calls
self.disconnect(reconnect=True), which the model mirrors.  Tasks spawned
with create_task (check_to_send, run_task) are inlined at their spawn
point; no claim below depends on the interleaving of those tasks with
the remainder of the spawning coroutine.  Wall-clock reads
(datetime.datetime.now()) are passed in as an explicit `now` argument.
-/

namespace IEC104

/-- U-frame kinds, from the UFrame enumeration used by device.py. -/
inductive UFrame where
  | STARTDT_ACT | STARTDT_CON
  | STOPDT_ACT | STOPDT_CON
  | TESTFR_ACT | TESTFR_CON
  deriving DecidableEq, Repr

/-- Modelled from the spec: the Cause enumeration lives in the codec module
(frame.py), which is not among the sources; device.py only compares causes
for equality, so the enumeration itself suffices (numeric values are
irrelevant to the claims). -/
inductive Cause where
  | act | actcon | actterm | req | spont | introgen | reqcogen
  | other (n : Nat)
  deriving DecidableEq, Repr

namespace TYP

/-- Modelled from the spec: ASDU type identifiers are declared in the codec
module (frame.py), absent from the sources; the numeric values below are the
ones listed in the spec's supported-TYP table.  device.py orders TYPs by
their numeric value. -/
def M_SP_NA_1 : Nat := 1

def M_ME_NA_1 : Nat := 9

/-- Modelled from the spec: upper bound of the monitored-measurement range
used by handle_i; the value is the IEC 60870-5-101 code of M_EP_TD_1 (the
spec names the range M_SP_NA_1..M_EP_TD_1 without listing the number). -/
def M_EP_TD_1 : Nat := 38

def C_SC_NA_1 : Nat := 45

/-- Modelled from the spec: upper bound of the command range used by
handle_i; the value is the IEC 60870-5-101 code of C_SE_TC_1 (the spec
names the range C_SC_NA_1..C_SE_TC_1 without listing the number). -/
def C_SE_TC_1 : Nat := 64

def C_IC_NA_1 : Nat := 100

def C_CI_NA_1 : Nat := 101

def C_RD_NA_1 : Nat := 102

def C_CS_NA_1 : Nat := 103

end TYP

namespace IECParam

/-- Flow-control threshold K (IECParam.K of the codec module; value from the
spec). -/
def K : Nat := 12

/-- Flow-control threshold W (IECParam.W of the codec module; value from the
spec). -/
def W : Nat := 8

end IECParam

/-- One element of an ASDU data array.  Optional fields model Python
attributes that may be absent on the parsed Container (hasattr checks, and
attribute errors where device.py accesses them unconditionally). -/
structure DataElem where
  Address : Nat
  Value : Int
  IV : Option Nat
  SE : Option Nat
  CP56Time2a : Option Nat
  CP24Time2a : Option Nat
  deriving DecidableEq, Repr

/-- Decoded ASDU body as device.py reads it. -/
structure Asdu where
  TYP : Nat
  Cause : Cause
  SQ : Nat
  StartAddress : Nat
  data : List DataElem
  deriving DecidableEq, Repr

/-- First APCI control field as device.py discriminates it: the string "S"
for S-frames, a UFrame member for U-frames, and the (peer or stamped) send
sequence number for I-frames. -/
inductive Apci1 where
  | S
  | U (u : UFrame)
  | num (n : Nat)
  deriving DecidableEq, Repr

/-- Decoded frame: the two control words device.py reads plus the optional
ASDU body (absent on S/U frames). -/
structure Frame where
  APCI1 : Apci1
  APCI2 : Nat
  ASDU : Option Asdu
  deriving DecidableEq, Repr

/-- Session state of one IEC104Device, restricted to the fields the claims
are about.  Timers are booleans (armed or not); reconnectHandler holds the
delay of a scheduled reconnect (call_soon = 0, call_later 3 = 3) or none;
taskHandler holds the delay of the armed run_task re-entry. -/
structure Session where
  ssn : Nat := 0
  rsn : Nat := 0
  k : Int := 0
  w : Nat := 0
  sendList : List Frame := []
  userCanceled : Bool := false
  connectRetryCount : Nat := 0
  reconnectHandler : Option Nat := some 0
  taskHandler : Option Int := none
  t1 : Bool := false
  t2 : Bool := false
  t3 : Bool := false
  onLine : Bool := false
  lastCallAllTimeBegin : Option Nat := none
  lastCallAllTimeEnd : Option Nat := none
  collInterval : Nat := 900
  deriving DecidableEq, Repr

/-- IEC104Device.disconnect.  reconnect=False marks the stop user-canceled
and cancels a pending reconnect; reconnect=True schedules a reconnect at
+3 s (and counts the attempt) only when none is pending.  Both paths stop
T1, T2, T3, drop the on-line status, zero ssn, rsn, k, w and clear
send_list. -/
def disconnect (s : Session) (reconnect : Bool) : Session :=
  let s :=
    if reconnect = false then
      {s with userCanceled := true, reconnectHandler := none}
    else if s.reconnectHandler = none then
      {s with reconnectHandler := some 3, connectRetryCount := s.connectRetryCount + 1}
    else s
  {s with t1 := false, t2 := false, t3 := false, onLine := false,
          ssn := 0, rsn := 0, k := 0, w := 0, sendList := []}

/-- IEC104Device.inc_ssn: increment with wrap at 32767. -/
def inc_ssn (s : Session) : Session :=
  {s with ssn := if s.ssn < 32767 then s.ssn + 1 else 0}

/-- IEC104Device.inc_rsn: increment with wrap at 32767.  Note that no code
path of device.py calls this function. -/
def inc_rsn (s : Session) : Session :=
  {s with rsn := if s.rsn < 32767 then s.rsn + 1 else 0}

/-- Modelled from the spec: iec_104.init_frame of the codec module (absent
from the sources) building an S-frame carrying the given rsn. -/
def init_frame_s (rsn : Nat) : Frame :=
  { APCI1 := Apci1.S, APCI2 := rsn, ASDU := none }

/-- Modelled from the spec: iec_104.init_frame building a U-frame. -/
def init_frame_u (u : UFrame) : Frame :=
  { APCI1 := Apci1.U u, APCI2 := 0, ASDU := none }

/-- Modelled from the spec: iec_104.init_frame building an I-frame with the
given sequence numbers, TYP and cause, holding a single default data
element (prepare_call_frame and prepare_ctrl_frame fill data[0] in). -/
def init_frame_i (ssn rsn typ : Nat) (c : Cause) : Frame :=
  { APCI1 := Apci1.num ssn, APCI2 := rsn,
    ASDU := some { TYP := typ, Cause := c, SQ := 0, StartAddress := 0,
                   data := [{ Address := 0, Value := 0, IV := none, SE := none,
                              CP56Time2a := none, CP24Time2a := none }] } }

/-- True exactly on S-frames. -/
def isS (f : Frame) : Bool :=
  match f.APCI1 with
  | Apci1.S => true
  | _ => false

/-- IEC104Device.send_frame(frame, check).  Returns the successor state and
the frames written to the socket.  The S branch stamps the current rsn and
zeroes w; the U branch writes when check is false or send_list is empty and
queues act frames when check is true; the I branch writes unless an act is
already in flight with check=true, stamping (ssn, rsn), bumping ssn and k,
zeroing w, arming T1 for acts, and queues acts when check is true.  Reading
frame.ASDU on a frame without a body raises, which the enclosing except
turns into disconnect(reconnect=True). -/
def send_frame (s : Session) (fo : Option Frame) (check : Bool) : Session × List Frame :=
  match fo with
  | none => (s, [])
  | some f =>
    match f.APCI1 with
    | Apci1.S =>
      let s1 := {s with t2 := false}
      let f1 := {f with APCI2 := s1.rsn}
      ({s1 with w := 0}, [f1])
    | Apci1.U u =>
      if check = false ∨ s.sendList = [] then
        let s1 := if u = UFrame.STARTDT_ACT ∨ u = UFrame.TESTFR_ACT then {s with t1 := true} else s
        let s2 :=
          if check = true ∧ (u = UFrame.STARTDT_ACT ∨ u = UFrame.TESTFR_ACT) then
            {s1 with sendList := s1.sendList ++ [f]}
          else s1
        (s2, [f])
      else
        let s2 :=
          if check = true ∧ (u = UFrame.STARTDT_ACT ∨ u = UFrame.TESTFR_ACT) then
            {s with sendList := s.sendList ++ [f]}
          else s
        (s2, [])
    | Apci1.num _ =>
      match f.ASDU with
      | none => (disconnect s true, [])
      | some a =>
        if check = false ∨ s.sendList = [] ∨ a.Cause ≠ Cause.act then
          let s1 := {s with t2 := false}
          let f1 := {f with APCI1 := Apci1.num s1.ssn, APCI2 := s1.rsn}
          let s2 := inc_ssn s1
          let s3 := {s2 with k := s2.k + 1, w := 0}
          let s4 := if a.Cause = Cause.act then {s3 with t1 := true} else s3
          let s5 :=
            if check = true ∧ a.Cause = Cause.act then
              {s4 with sendList := s4.sendList ++ [f1]}
            else s4
          (s5, [f1])
        else
          let s5 :=
            if check = true ∧ a.Cause = Cause.act then
              {s with sendList := s.sendList ++ [f]}
            else s
          (s5, [])

/-- IEC104Device.check_to_send(frame).  Stops T1, then pops the head of
send_list when the incoming frame is a matching confirmation (a U
confirmation, a TYP equal to the head's, or a read response for a pending
C_RD_NA_1) and sends the new head with check=False.  Reading frame.ASDU or
send_list[0].ASDU on a frame without a body raises, which the enclosing
except turns into disconnect(reconnect=True). -/
def check_to_send (s0 : Session) (fo : Option Frame) : Session × List Frame :=
  let s := {s0 with t1 := false}
  match fo with
  | none => (s, [])
  | some f =>
    match s.sendList with
    | [] => (s, [])
    | h :: rest =>
      if f.APCI1 = Apci1.U UFrame.STARTDT_CON ∨ f.APCI1 = Apci1.U UFrame.TESTFR_CON ∨
          f.APCI1 = Apci1.U UFrame.STOPDT_CON then
        send_frame {s with sendList := rest} rest.head? false
      else
        match f.ASDU with
        | none => (disconnect s true, [])
        | some a =>
          match h.ASDU with
          | none => (disconnect s true, [])
          | some ha =>
            if a.TYP = ha.TYP ∨ (a.Cause = Cause.req ∧ ha.TYP = TYP.C_RD_NA_1) then
              send_frame {s with sendList := rest} rest.head? false
            else (s, [])

/-- Timestamp attached to a dispatched data point: CP56Time2a if present,
else CP24Time2a, else the wall clock. -/
inductive DataTime where
  | cp56 (t : Nat)
  | cp24 (t : Nat)
  | wallNow
  deriving DecidableEq, Repr

/-- Quality skip of handle_i: an element is skipped when it has an IV
attribute and the attribute is nonzero. -/
def isSkipped (d : DataElem) : Bool :=
  match d.IV with
  | some iv => iv != 0
  | none => false

/-- Timestamp selection of handle_i for one data element. -/
def elemTime (d : DataElem) : DataTime :=
  match d.CP56Time2a with
  | some t => DataTime.cp56 t
  | none =>
    match d.CP24Time2a with
    | some t => DataTime.cp24 t
    | none => DataTime.wallNow

/-- Data-pair loop of handle_i: iterate the data array, skip invalid
elements, and compute (data_time, data_addr, value); for SQ=1 the address
is StartAddress + idx where idx counts the elements emitted so far (the
source increments idx only after the skip test). -/
def dispatch_loop (a : Asdu) : Nat → List DataElem → List (DataTime × Nat × Int)
  | _, [] => []
  | idx, d :: rest =>
    if isSkipped d then dispatch_loop a idx rest
    else
      (elemTime d, (if a.SQ = 0 then d.Address else a.StartAddress + idx), d.Value) ::
        dispatch_loop a (idx + 1) rest

/-- Set of (data_time, data_addr, value) triples handle_i hands to
process_data, in iteration order (the source inserts them into a Python
set; the claims are about the computed addresses, for which the list is
the finer-grained description). -/
def data_pairs (a : Asdu) : List (DataTime × Nat × Int) :=
  dispatch_loop a 0 a.data

/-- Measurement classification of handle_i (the condition of its dispatch
branch), with Python evaluation order: the actcon conjunct reads
data[0].SE, raising on an empty data array or a missing SE attribute. -/
def evalMeasCond (a : Asdu) : Except Unit Bool :=
  if a.Cause = Cause.spont ∨ a.Cause = Cause.introgen ∨ a.Cause = Cause.reqcogen then
    Except.ok true
  else if a.Cause = Cause.req ∧ TYP.M_SP_NA_1 ≤ a.TYP ∧ a.TYP ≤ TYP.M_EP_TD_1 then
    Except.ok true
  else if a.Cause = Cause.actcon ∧ TYP.C_SC_NA_1 ≤ a.TYP ∧ a.TYP ≤ TYP.C_SE_TC_1 then
    match a.data with
    | [] => Except.error ()
    | d :: _ =>
      match d.SE with
      | none => Except.error ()
      | some se => Except.ok (se = 0)
  else Except.ok false

/-- Cause-routing stage of IEC104Device.handle_i, entered after the
w-threshold acknowledgement and the actcon/req confirmation handling:
dispatch measurement frames through data_pairs (the process_data
collaborator leaves the session state unchanged); echo the execute phase
of a select-before-operate actcon; stamp last_call_all_time_end on a
C_CI_NA_1 actterm; log-only on act and unknown causes.  Attribute and
index errors are turned into disconnect(reconnect=True) by the enclosing
except of handle_i. -/
def handle_i_route (s3 : Session) (f : Frame) (a : Asdu) (now : Nat) : Session × List Frame :=
  match evalMeasCond a with
  | Except.error _ => (disconnect s3 true, [])
  | Except.ok true => (s3, [])
  | Except.ok false =>
    if a.Cause = Cause.actcon then
      if TYP.C_SC_NA_1 ≤ a.TYP ∧ a.TYP ≤ TYP.C_SE_TC_1 then
        match a.data with
        | [] => (disconnect s3 true, [])
        | d :: rest =>
          match d.SE with
          | none => (disconnect s3 true, [])
          | some se =>
            if se = 1 then
              let a1 := {a with Cause := Cause.act, data := {d with SE := some 0} :: rest}
              let f1 := {f with ASDU := some a1}
              send_frame s3 (some f1) true
            else (s3, [])
      else (s3, [])
    else if a.Cause = Cause.actterm then
      (if a.TYP = TYP.C_CI_NA_1 then {s3 with lastCallAllTimeEnd := some now} else s3, [])
    else (s3, [])

/-- IEC104Device.handle_i(frame).  Starts T2; sends an S-frame carrying the
current rsn when w has reached W; on actcon/req stops T1 and runs
check_to_send; then routes by cause through handle_i_route.  Reading
frame.ASDU on a frame without a body raises, which the enclosing except
turns into disconnect(reconnect=True). -/
def handle_i (s0 : Session) (f : Frame) (now : Nat) : Session × List Frame :=
  match f.ASDU with
  | none => (disconnect s0 true, [])
  | some a =>
    let s1 := {s0 with t2 := true}
    let r1 :=
      if IECParam.W ≤ s1.w then send_frame s1 (some (init_frame_s s1.rsn)) true
      else (s1, [])
    let r2 :=
      if a.Cause = Cause.actcon ∨ a.Cause = Cause.req then
        check_to_send {r1.1 with t1 := false} (some f)
      else (r1.1, [])
    let r3 := handle_i_route r2.1 f a now
    (r3.1, r1.2 ++ r2.2 ++ r3.2)

/-- Scheduler events of run_task: cancellation of the prior task handler
and arming of the next one-shot re-entry. -/
inductive TaskEvent where
  | cancel
  | arm (delta : Int)
  deriving DecidableEq, Repr

/-- Result of run_task: successor state, frames written to the socket,
frames submitted to send_frame (in submission order), and the scheduler
events in program order. -/
structure RunOut where
  state : Session
  wires : List Frame
  submitted : List Frame
  taskEvents : List TaskEvent
  deriving DecidableEq, Repr

/-- IEC104Device.run_task.  Defaults last_call_all_time_end to now; when a
collection interval has elapsed, records last_call_all_time_begin and
submits the clock-sync, general-interrogation and counter-interrogation
I-frames (cause act) to send_frame in that order; finally cancels the
prior task handler, if any, before arming the one-shot re-entry (the
armed delay is kept as the raw signed difference; Python normalises it
through timedelta.seconds). -/
def run_task (s0 : Session) (now : Nat) : RunOut :=
  let e := s0.lastCallAllTimeEnd.getD now
  let s := {s0 with lastCallAllTimeEnd := some e}
  let step :=
    if e + s.collInterval ≤ now then
      let sB := {s with lastCallAllTimeBegin := some now}
      let f1 := init_frame_i sB.ssn sB.rsn TYP.C_CS_NA_1 Cause.act
      let r1 := send_frame sB (some f1) true
      let f2 := init_frame_i r1.1.ssn r1.1.rsn TYP.C_IC_NA_1 Cause.act
      let r2 := send_frame r1.1 (some f2) true
      let f3 := init_frame_i r2.1.ssn r2.1.rsn TYP.C_CI_NA_1 Cause.act
      let r3 := send_frame r2.1 (some f3) true
      (r3.1, r1.2 ++ r2.2 ++ r3.2, [f1, f2, f3])
    else (s, ([] : List Frame), ([] : List Frame))
  let s1 := step.1
  let ev := if s1.taskHandler.isSome then [TaskEvent.cancel] else []
  let delta : Int := (e : Int) + (s1.collInterval : Int) - (now : Int)
  { state := {s1 with taskHandler := some delta},
    wires := step.2.1, submitted := step.2.2,
    taskEvents := ev ++ [TaskEvent.arm delta] }

/-- IEC104Device.handle_u(frame).  Cross-start and cross-test drop the own
act from the head of send_list; STARTDT paths reply or proceed and run the
scheduler and check_to_send; STOPDT_ACT replies STOPDT_CON and calls
disconnect() with its default reconnect=False; STOPDT_CON stops T1 and
does the same. -/
def handle_u (s0 : Session) (f : Frame) (now : Nat) : Session × List Frame :=
  match f.APCI1 with
  | Apci1.U u =>
    match u with
    | UFrame.STARTDT_ACT =>
      let s :=
        match s0.sendList with
        | h :: rest =>
          if h.APCI1 = Apci1.U UFrame.STARTDT_ACT then {s0 with sendList := rest, t1 := false}
          else s0
        | [] => s0
      let r1 := send_frame s (some (init_frame_u UFrame.STARTDT_CON)) true
      let r2 := run_task r1.1 now
      let r3 := check_to_send r2.state (some f)
      (r3.1, r1.2 ++ r2.wires ++ r3.2)
    | UFrame.STARTDT_CON =>
      let r1 := run_task s0 now
      let r2 := check_to_send r1.state (some f)
      (r2.1, r1.wires ++ r2.2)
    | UFrame.TESTFR_ACT =>
      let s :=
        match s0.sendList with
        | h :: rest =>
          if h.APCI1 = Apci1.U UFrame.TESTFR_ACT then {s0 with sendList := rest, t1 := false}
          else s0
        | [] => s0
      send_frame s (some (init_frame_u UFrame.TESTFR_CON)) true
    | UFrame.TESTFR_CON => check_to_send s0 (some f)
    | UFrame.STOPDT_ACT =>
      let r := send_frame s0 (some (init_frame_u UFrame.STOPDT_CON)) true
      (disconnect r.1 false, r.2)
    | UFrame.STOPDT_CON =>
      (disconnect {s0 with t1 := false} false, [])
  | _ => (s0, [])

/-- Bad-frame branch of IEC104Device.receive: on a sequence mismatch the
session disconnects with reconnect=True, but only when no reconnect is
already pending. -/
def bad_frame_path (s : Session) : Session × List Frame :=
  if s.reconnectHandler = none then (disconnect s true, []) else (s, [])

/-- One iteration of IEC104Device.receive after a complete frame has been
read: restart T3, then route U-frames to handle_u; for S/I-frames flag
bad_frame when ssn < frame.APCI2 and otherwise set k to their plain
difference; for I-frames additionally flag bad_frame on an rsn mismatch
and otherwise increment rsn and w (a plain += 1, without wrap) before
running handle_i on good frames. -/
def receive (s0 : Session) (f : Frame) (now : Nat) : Session × List Frame :=
  let s := {s0 with t3 := true}
  match f.APCI1 with
  | Apci1.U _ => handle_u s f now
  | Apci1.S =>
    if s.ssn < f.APCI2 then bad_frame_path s
    else ({s with k := (s.ssn : Int) - (f.APCI2 : Int)}, [])
  | Apci1.num pssn =>
    if s.ssn < f.APCI2 then
      if s.rsn = pssn then bad_frame_path {s with rsn := s.rsn + 1, w := s.w + 1}
      else bad_frame_path s
    else
      let s1 := {s with k := (s.ssn : Int) - (f.APCI2 : Int)}
      if s1.rsn = pssn then handle_i {s1 with rsn := s1.rsn + 1, w := s1.w + 1} f now
      else bad_frame_path s1

/-- Success path of IEC104Device.reconnect: the fired handler slot is
cleared, user_canceled is reset, the TCP connection is up (on-line status
set), and STARTDT_ACT is sent through send_frame with its default
check=True. -/
def reconnect_success (s0 : Session) : Session × List Frame :=
  let s := {s0 with reconnectHandler := none, userCanceled := false, onLine := true}
  send_frame s (some (init_frame_u UFrame.STARTDT_ACT)) true

end IEC104

namespace ApiServer

/-- Outcome of one create_term request: HTTP status, the store keys
written, and the (channel, payload) pairs published. -/
structure CreateTermResult where
  status : Nat
  stores : List String
  publishes : List (String × String)
  deriving DecidableEq, Repr

/-- Model of api_server.create_term (POST /api/v1/terms): when a term with
the same id already exists answer 409; otherwise write the term hash and
membership sets and publish the request body on the literal channel string
the source passes to redis_client.publish, then answer 200. -/
def create_term (termExists : Bool) (termId deviceId termData : String) : CreateTermResult :=
  if termExists then { status := 409, stores := [], publishes := [] }
  else
    { status := 200,
      stores := ["HS:TERM:" ++ termId, "SET:TERM", "SET:DEVICE_TERM:" ++ deviceId],
      publishes := [("CHANNEL:TERM_ADD\"", termData)] }

/-- Channel api_server.update_term publishes term-add events on when the
owning device of a term changes. -/
def update_term_add_channel : String := "CHANNEL:TERM_ADD"

end ApiServer

namespace IEC104

/-! General lemmas about the send path, the confirmation queue and the
I-frame handler, shared by the claim theorems below. -/

theorem send_frame_S (s : Session) (f : Frame) (c : Bool) (h : f.APCI1 = Apci1.S) :
    send_frame s (some f) c = ({s with t2 := false, w := 0}, [{f with APCI2 := s.rsn}]) := by
  obtain ⟨a1, a2, b⟩ := f
  cases a1 with
  | S => rfl
  | U u => exact absurd h (by simp)
  | num n => exact absurd h (by simp)

theorem send_frame_out_nonS (s : Session) (f : Frame) (c : Bool) (h : isS f = false) :
    ((send_frame s (some f) c).2.filter isS) = [] := by
  obtain ⟨a1, a2, b⟩ := f
  cases a1 with
  | S => simp [isS] at h
  | U u =>
    simp only [send_frame]
    split <;> simp [isS]
  | num n =>
    cases b with
    | none => simp [send_frame]
    | some a =>
      simp only [send_frame]
      split <;> simp [isS]

theorem send_frame_w (s : Session) (fo : Option Frame) (c : Bool) :
    (send_frame s fo c).1.w = 0 ∨ (send_frame s fo c).1.w = s.w := by
  match fo with
  | none => right; rfl
  | some f =>
    obtain ⟨a1, a2, b⟩ := f
    cases a1 with
    | S => left; rfl
    | U u =>
      simp only [send_frame]
      split_ifs <;> simp
    | num n =>
      cases b with
      | none => left; simp [send_frame, disconnect]
      | some a =>
        simp only [send_frame]
        split_ifs <;> simp

theorem check_to_send_w (s : Session) (fo : Option Frame) :
    (check_to_send s fo).1.w = 0 ∨ (check_to_send s fo).1.w = s.w := by
  cases fo with
  | none => right; rfl
  | some f =>
    rcases hL : s.sendList with _ | ⟨hd, rest⟩
    · simp only [check_to_send, hL]
      right; trivial
    · simp only [check_to_send, hL]
      split_ifs with h1
      · have := send_frame_w {s with t1 := false, sendList := rest} rest.head? false
        simpa using this
      · rcases f with ⟨fa1, fa2, fb⟩
        cases fb with
        | none => left; simp [disconnect]
        | some a =>
          cases hhd : hd.ASDU with
          | none => left; simp [disconnect]
          | some ha =>
            simp only [hhd]
            split_ifs with h2
            · have := send_frame_w {s with t1 := false, sendList := rest} rest.head? false
              simpa using this
            · right; rfl

theorem check_to_send_out_nonS (s : Session) (fo : Option Frame)
    (hs : ∀ g ∈ s.sendList, isS g = false) :
    ((check_to_send s fo).2.filter isS) = [] := by
  cases fo with
  | none => rfl
  | some f =>
    rcases hL : s.sendList with _ | ⟨hd, rest⟩
    · simp only [check_to_send, hL]
      trivial
    · have hrest : ∀ g ∈ rest, isS g = false := by
        intro g hg
        exact hs g (by rw [hL]; exact List.mem_cons_of_mem hd hg)
      have hout : ((send_frame {s with t1 := false, sendList := rest} rest.head? false).2.filter
          isS) = [] := by
        cases rest with
        | nil => rfl
        | cons x t =>
          exact send_frame_out_nonS _ x false (hrest x (List.mem_cons_self x t))
      simp only [check_to_send, hL]
      split_ifs with h1
      · simpa using hout
      · rcases f with ⟨fa1, fa2, fb⟩
        cases fb with
        | none => simp [disconnect]
        | some a =>
          cases hhd : hd.ASDU with
          | none => simp [disconnect]
          | some ha =>
            simp only [hhd]
            split_ifs with h2
            · simpa using hout
            · rfl

theorem handle_i_route_w (s : Session) (f : Frame) (a : Asdu) (now : Nat) :
    (handle_i_route s f a now).1.w = 0 ∨ (handle_i_route s f a now).1.w = s.w := by
  simp only [handle_i_route]
  split
  · left; simp [disconnect]
  · right; rfl
  · split
    · split
      · split
        · left; simp [disconnect]
        · split
          · left; simp [disconnect]
          · split
            · exact send_frame_w _ _ _
            · right; rfl
      · right; rfl
    · split
      · split <;> (right; rfl)
      · right; rfl

theorem handle_i_route_out_nonS (s : Session) (f : Frame) (a : Asdu) (now : Nat)
    (h : isS f = false) :
    ((handle_i_route s f a now).2.filter isS) = [] := by
  obtain ⟨fa1, fa2, fb⟩ := f
  cases fa1 with
  | S => simp [isS] at h
  | U u =>
    simp only [handle_i_route]
    split
    · rfl
    · rfl
    · split
      · split
        · split
          · rfl
          · split
            · rfl
            · split
              · exact send_frame_out_nonS _ _ _ rfl
              · rfl
        · rfl
      · split
        · rfl
        · rfl
  | num n =>
    simp only [handle_i_route]
    split
    · rfl
    · rfl
    · split
      · split
        · split
          · rfl
          · split
            · rfl
            · split
              · exact send_frame_out_nonS _ _ _ rfl
              · rfl
        · rfl
      · split
        · rfl
        · rfl

theorem route_after_w0 (s2 : Session) (f : Frame) (a : Asdu) (now : Nat) (h : s2.w = 0) :
    (handle_i_route s2 f a now).1.w = 0 := by
  rcases handle_i_route_w s2 f a now with h1 | h1
  · exact h1
  · rw [h1, h]

theorem cts_route_w0 (s2 : Session) (fo : Option Frame) (f : Frame) (a : Asdu) (now : Nat)
    (h : s2.w = 0) :
    (handle_i_route (check_to_send s2 fo).1 f a now).1.w = 0 := by
  apply route_after_w0
  rcases check_to_send_w s2 fo with h1 | h1
  · exact h1
  · rw [h1, h]

theorem receive_accept_I (s : Session) (f : Frame) (pssn now : Nat)
    (hA : f.APCI1 = Apci1.num pssn) (hseq : pssn = s.rsn) (hk : f.APCI2 ≤ s.ssn) :
    receive s f now =
      handle_i {s with t3 := true, k := (s.ssn : Int) - (f.APCI2 : Int),
                       rsn := s.rsn + 1, w := s.w + 1} f now := by
  simp only [receive, hA]
  rw [if_neg (by simpa using Nat.not_lt.mpr hk)]
  rw [if_pos (by simpa using hseq.symm)]

theorem handle_i_wS (s : Session) (f : Frame) (a : Asdu) (now : Nat)
    (hasdu : f.ASDU = some a) (hnonS : isS f = false)
    (hsl : ∀ g ∈ s.sendList, isS g = false) :
    (8 ≤ s.w →
      ((handle_i s f now).2.filter isS) = [{ APCI1 := Apci1.S, APCI2 := s.rsn, ASDU := none }] ∧
      (handle_i s f now).1.w = 0) ∧
    (s.w < 8 →
      ((handle_i s f now).2.filter isS) = [] ∧
      ((handle_i s f now).1.w = 0 ∨ (handle_i s f now).1.w = s.w)) := by
  have hYsl : ∀ g ∈ ({s with t2 := false, w := 0, t1 := false} : Session).sendList,
      isS g = false := hsl
  have hY2sl : ∀ g ∈ ({s with t2 := true, t1 := false} : Session).sendList, isS g = false := hsl
  simp only [handle_i, hasdu, IECParam.W]
  constructor
  · intro hw
    rw [if_pos (by simpa using hw)]
    by_cases hc : a.Cause = Cause.actcon ∨ a.Cause = Cause.req
    · rw [if_pos hc]
      refine ⟨?_, ?_⟩
      · have e : List.filter isS
            ((send_frame ({s with t2 := true} : Session) (some (init_frame_s s.rsn)) true).2 ++
              (check_to_send ({s with t2 := false, w := 0, t1 := false} : Session) (some f)).2 ++
              (handle_i_route
                (check_to_send ({s with t2 := false, w := 0, t1 := false} : Session) (some f)).1
                f a now).2) =
            [{ APCI1 := Apci1.S, APCI2 := s.rsn, ASDU := none }] := by
          rw [List.filter_append, List.filter_append,
            check_to_send_out_nonS ({s with t2 := false, w := 0, t1 := false} : Session)
              (some f) hYsl,
            handle_i_route_out_nonS _ f a now hnonS]
          rfl
        exact e
      · exact cts_route_w0 ({s with t2 := false, w := 0, t1 := false} : Session)
          (some f) f a now rfl
    · rw [if_neg hc]
      refine ⟨?_, ?_⟩
      · have e : List.filter isS
            ((send_frame ({s with t2 := true} : Session) (some (init_frame_s s.rsn)) true).2 ++
              [] ++
              (handle_i_route ({s with t2 := false, w := 0} : Session) f a now).2) =
            [{ APCI1 := Apci1.S, APCI2 := s.rsn, ASDU := none }] := by
          rw [List.filter_append, List.filter_append,
            handle_i_route_out_nonS _ f a now hnonS]
          rfl
        exact e
      · exact route_after_w0 ({s with t2 := false, w := 0} : Session) f a now rfl
  · intro hw
    rw [if_neg (by simpa using Nat.not_le.mpr hw)]
    by_cases hc : a.Cause = Cause.actcon ∨ a.Cause = Cause.req
    · rw [if_pos hc]
      refine ⟨?_, ?_⟩
      · have e : List.filter isS
            (([] : List Frame) ++
              (check_to_send ({s with t2 := true, t1 := false} : Session) (some f)).2 ++
              (handle_i_route
                (check_to_send ({s with t2 := true, t1 := false} : Session) (some f)).1
                f a now).2) = [] := by
          rw [List.filter_append, List.filter_append,
            check_to_send_out_nonS ({s with t2 := true, t1 := false} : Session) (some f) hY2sl,
            handle_i_route_out_nonS _ f a now hnonS]
          rfl
        exact e
      · have h1 := check_to_send_w ({s with t2 := true, t1 := false} : Session) (some f)
        have h2 := handle_i_route_w
          ((check_to_send ({s with t2 := true, t1 := false} : Session) (some f)).1) f a now
        rcases h2 with h2 | h2
        · left; exact h2
        · rcases h1 with h1 | h1
          · left; exact h2.trans h1
          · right; exact h2.trans h1
    · rw [if_neg hc]
      refine ⟨?_, ?_⟩
      · have e : List.filter isS
            (([] : List Frame) ++ [] ++
              (handle_i_route ({s with t2 := true} : Session) f a now).2) = [] := by
          rw [List.filter_append, List.filter_append,
            handle_i_route_out_nonS _ f a now hnonS]
          rfl
        exact e
      · have h2 := handle_i_route_w ({s with t2 := true} : Session) f a now
        rcases h2 with h2 | h2
        · left; exact h2
        · right; exact h2

theorem dispatch_loop_addrs (a : Asdu) (hSQ : a.SQ = 1) :
    ∀ (l : List DataElem) (idx : Nat),
      (dispatch_loop a idx l).map (fun p => p.2.1) =
        (List.range (l.filter (fun d => !isSkipped d)).length).map
          (fun j => a.StartAddress + idx + j) := by
  intro l
  induction l with
  | nil => intro idx; rfl
  | cons d rest ih =>
    intro idx
    by_cases hd : isSkipped d = true
    · simp only [dispatch_loop, hd, if_true, List.filter_cons, Bool.not_eq_true']
      rw [if_neg (by simp [hd])]
      exact ih idx
    · have hd2 : isSkipped d = false := by simpa using hd
      have e1 : dispatch_loop a idx (d :: rest) =
          (elemTime d, (if a.SQ = 0 then d.Address else a.StartAddress + idx), d.Value) ::
            dispatch_loop a (idx + 1) rest := by
        simp [dispatch_loop, hd2]
      have e2 : List.filter (fun d => !isSkipped d) (d :: rest) =
          d :: List.filter (fun d => !isSkipped d) rest := by
        simp [List.filter_cons, hd2]
      rw [e1, List.map_cons, ih (idx + 1), e2]
      rw [List.length_cons, List.range_succ_eq_map, List.map_cons, List.map_map]
      rw [if_neg (by simp [hSQ])]
      simp only [List.cons.injEq]
      refine ⟨by omega, ?_⟩
      apply List.map_congr_left
      intro x hx
      simp only [Function.comp_apply]
      omega

/-- Frames whose transmission cannot raise inside send_frame: S- and
U-frames, and I-frames carrying an ASDU body. -/
def sendable (g : Frame) : Prop :=
  match g.APCI1 with
  | Apci1.num _ => g.ASDU ≠ none
  | _ => True

theorem send_frame_retry (s : Session) (fo : Option Frame) (c : Bool)
    (h : ∀ g, fo = some g → sendable g) :
    (send_frame s fo c).1.connectRetryCount = s.connectRetryCount := by
  cases fo with
  | none => rfl
  | some g =>
    have hg := h g rfl
    obtain ⟨a1, a2, b⟩ := g
    cases a1 with
    | S => rfl
    | U u =>
      simp only [send_frame]
      split_ifs <;> simp
    | num n =>
      cases b with
      | none => exact absurd rfl hg
      | some a =>
        simp only [send_frame]
        split_ifs <;> simp [inc_ssn]

theorem send_frame_sendList_sendable (s : Session) (fo : Option Frame) (c : Bool)
    (hs : ∀ g ∈ s.sendList, sendable g) (hf : ∀ g0, fo = some g0 → sendable g0) :
    ∀ g ∈ (send_frame s fo c).1.sendList, sendable g := by
  cases fo with
  | none => exact hs
  | some g0 =>
    have hg0 := hf g0 rfl
    obtain ⟨a1, a2, b⟩ := g0
    cases a1 with
    | S => exact hs
    | U u =>
      simp only [send_frame]
      split_ifs <;> intro g hg <;> simp only [List.mem_append, List.mem_singleton] at hg <;>
        first
          | (rcases hg with hg | hg
             · exact hs g hg
             · subst hg; trivial)
          | exact hs g hg
    | num n =>
      cases b with
      | none => exact absurd rfl hg0
      | some a =>
        simp only [send_frame]
        split_ifs <;> intro g hg <;> simp only [List.mem_append, List.mem_singleton] at hg <;>
          first
            | (rcases hg with hg | hg
               · exact hs g hg
               · subst hg; simp [sendable])
            | exact hs g hg

theorem check_to_send_ucon_retry (s : Session) (f : Frame)
    (hU : f.APCI1 = Apci1.U UFrame.STARTDT_CON)
    (h : ∀ g ∈ s.sendList, sendable g) :
    (check_to_send s (some f)).1.connectRetryCount = s.connectRetryCount := by
  rcases hL : s.sendList with _ | ⟨hd, rest⟩
  · simp [check_to_send, hL]
  · simp only [check_to_send, hL]
    rw [if_pos (by simp [hU])]
    have hc : (send_frame {s with t1 := false, sendList := rest} rest.head?
        false).1.connectRetryCount =
        ({s with t1 := false, sendList := rest} : Session).connectRetryCount := by
      apply send_frame_retry
      intro g hg
      cases rest with
      | nil => simp at hg
      | cons x t =>
        have hx : x = g := by simpa using hg
        subst hx
        exact h x (by rw [hL]; exact List.mem_cons_of_mem hd (List.mem_cons_self x t))
    simpa using hc

theorem run_task_retry (s : Session) (now : Nat) (hnil : s.sendList = []) :
    (run_task s now).state.connectRetryCount = s.connectRetryCount ∧
    (∀ g ∈ (run_task s now).state.sendList, sendable g) := by
  have hsf : ∀ (st : Session) (sa ra ty : Nat),
      (send_frame st (some (init_frame_i sa ra ty Cause.act)) true).1.connectRetryCount =
        st.connectRetryCount := by
    intro st sa ra ty
    apply send_frame_retry
    intro g hg
    cases hg
    simp [sendable, init_frame_i]
  have hsl : ∀ (st : Session) (sa ra ty : Nat),
      (∀ g ∈ st.sendList, sendable g) →
      ∀ g ∈ (send_frame st (some (init_frame_i sa ra ty Cause.act)) true).1.sendList,
        sendable g := by
    intro st sa ra ty hst
    apply send_frame_sendList_sendable _ _ _ hst
    intro g hg
    cases hg
    simp [sendable, init_frame_i]
  simp only [run_task]
  split
  · constructor
    · rw [hsf, hsf, hsf]
    · intro g hg
      refine hsl _ _ _ _ (hsl _ _ _ _ (hsl _ _ _ _ ?_)) g hg
      simp [hnil]
  · constructor
    · rfl
    · intro g hg
      simp only [hnil] at hg
      simp at hg

theorem send_frame_sched (s : Session) (fo : Option Frame) (c : Bool) :
    (send_frame s fo c).1.lastCallAllTimeBegin = s.lastCallAllTimeBegin ∧
    (send_frame s fo c).1.taskHandler = s.taskHandler ∧
    (send_frame s fo c).1.collInterval = s.collInterval := by
  cases fo with
  | none => exact ⟨rfl, rfl, rfl⟩
  | some g =>
    obtain ⟨a1, a2, b⟩ := g
    cases a1 with
    | S => exact ⟨rfl, rfl, rfl⟩
    | U u =>
      simp only [send_frame]
      split_ifs <;> simp
    | num n =>
      cases b with
      | none =>
        simp only [send_frame, disconnect]
        split_ifs <;> simp
      | some a =>
        simp only [send_frame]
        split_ifs <;> simp [inc_ssn, disconnect]

end IEC104

namespace IEC104

/-! Claim-specific concrete inputs and claim theorems. -/

/-- Session one accepted I-frame away from the rsn overflow: rsn at its
maximum 15-bit value. -/
def c1session : Session := { ssn := 100, rsn := 32767, reconnectHandler := none }

/-- Spontaneous measurement I-frame whose peer ssn matches c1session.rsn and
whose peer rsn 0 is within the window. -/
def c1frame : Frame :=
  { APCI1 := Apci1.num 32767, APCI2 := 0,
    ASDU := some { TYP := 1, Cause := Cause.spont, SQ := 0, StartAddress := 0, data := [] } }

/-- C1: the receive path increments rsn with a plain += 1 and never calls
inc_rsn, so accepting an I-frame at rsn = 32767 leaves rsn = 32768,
violating 0 ≤ rsn < 32768; the dead inc_rsn of the same class would have
wrapped it to 0 as the spec states. -/
theorem iec104_rsn_increment_overflows :
    ((receive c1session c1frame 0).1).rsn = 32768 ∧
    ¬ (((receive c1session c1frame 0).1).rsn < 32768) ∧
    (inc_rsn c1session).rsn = 0 := by decide

/-- SQ=1 measurement ASDU whose first element is invalid (IV = 1) and whose
second element is valid. -/
def c2asdu : Asdu :=
  { TYP := 1, Cause := Cause.spont, SQ := 1, StartAddress := 100,
    data := [{ Address := 0, Value := 3, IV := some 1, SE := none,
               CP56Time2a := none, CP24Time2a := none },
             { Address := 0, Value := 7, IV := some 0, SE := none,
               CP56Time2a := none, CP24Time2a := none }] }

/-- C2 counterexample: in c2asdu the valid element sits at position 1 of the
data array, so the claim assigns it StartAddress + 1 = 101; the dispatcher
assigns it 100, because the skipped element does not advance idx. -/
theorem iec104_sq1_skip_shifts_addresses_cex :
    c2asdu.SQ = 1 ∧ c2asdu.StartAddress = 100 ∧
    c2asdu.data.map isSkipped = [true, false] ∧
    data_pairs c2asdu = [(DataTime.wallNow, 100, 7)] ∧
    (∀ p ∈ data_pairs c2asdu, p.2.1 ≠ 100 + 1) := by decide

/-- C2 (amended): for SQ=1 the dispatcher assigns the i-th element that
passes the quality check the address StartAddress + i, counting only the
non-skipped elements; a skipped element shifts the addresses of all later
elements down by one. -/
theorem iec104_sq1_addresses_skip_aware (a : Asdu) (hSQ : a.SQ = 1) :
    (data_pairs a).map (fun p => p.2.1) =
      (List.range ((a.data.filter (fun d => !isSkipped d)).length)).map
        (fun j => a.StartAddress + j) := by
  have h := dispatch_loop_addrs a hSQ a.data 0
  simpa using h

/-- Witness for C2: the amended address law evaluated on c2asdu. -/
theorem iec104_sq1_addresses_skip_aware_witness :
    c2asdu.SQ = 1 ∧
    (data_pairs c2asdu).map (fun p => p.2.1) =
      (List.range ((c2asdu.data.filter (fun d => !isSkipped d)).length)).map
        (fun j => c2asdu.StartAddress + j) :=
  ⟨rfl, iec104_sq1_addresses_skip_aware c2asdu rfl⟩

/-- Session whose ssn has just wrapped to 0. -/
def c3session : Session := { ssn := 0, reconnectHandler := none }

/-- S-frame acknowledging up to peer rsn 32767, numerically above the
wrapped local ssn. -/
def c3frame : Frame := { APCI1 := Apci1.S, APCI2 := 32767, ASDU := none }

/-- C3 counterexample: after ssn wraps to 0, an S-frame with rsn 32767 is
treated as fatal (the session disconnects and schedules a reconnect) and k
is not the wrapped difference (0 - 32767) mod 32768 = 1; the claim calls
this frame valid. -/
theorem iec104_wrapped_rsn_fatal_cex :
    ((receive c3session c3frame 0).1).reconnectHandler = some 3 ∧
    ((receive c3session c3frame 0).1).connectRetryCount = 1 ∧
    ((receive c3session c3frame 0).1).sendList = [] ∧
    ((receive c3session c3frame 0).1).k = 0 ∧
    ((receive c3session c3frame 0).1).k ≠
      ((c3session.ssn : Int) - (c3frame.APCI2 : Int)) % 32768 := by decide

/-- C3 (amended): on every received S- or I-frame the session sets k to the
plain (non-modular) difference ssn - rsn_peer whenever rsn_peer ≤ ssn - for
I-frames this update happens even when the frame is then rejected for an
rsn mismatch; an accepted I-frame (matching peer ssn) additionally
increments rsn and w and is routed to handle_i.  Every frame with rsn_peer
numerically greater than ssn is treated as a sequence violation with no
wrap treatment: when no reconnect is pending the session disconnects and
schedules one; with a reconnect already pending the frame is not routed
further, though an I-frame whose peer ssn matches still leaves rsn and w
incremented. -/
theorem iec104_seq_check_plain_difference (s : Session) (f : Frame) (now : Nat) :
    (f.APCI1 = Apci1.S →
      (f.APCI2 ≤ s.ssn →
        receive s f now = ({s with t3 := true, k := (s.ssn : Int) - (f.APCI2 : Int)}, [])) ∧
      (s.ssn < f.APCI2 → s.reconnectHandler = none →
        ((receive s f now).1).reconnectHandler = some 3 ∧
        ((receive s f now).1).connectRetryCount = s.connectRetryCount + 1 ∧
        ((receive s f now).1).ssn = 0 ∧ ((receive s f now).1).rsn = 0 ∧
        ((receive s f now).1).k = 0 ∧ ((receive s f now).1).sendList = [] ∧
        (receive s f now).2 = []) ∧
      (s.ssn < f.APCI2 → s.reconnectHandler ≠ none →
        receive s f now = ({s with t3 := true}, []))) ∧
    (∀ pssn, f.APCI1 = Apci1.num pssn →
      (f.APCI2 ≤ s.ssn → pssn = s.rsn →
        receive s f now =
          handle_i {s with t3 := true, k := (s.ssn : Int) - (f.APCI2 : Int),
                           rsn := s.rsn + 1, w := s.w + 1} f now) ∧
      (f.APCI2 ≤ s.ssn → pssn ≠ s.rsn → s.reconnectHandler = none →
        ((receive s f now).1).reconnectHandler = some 3 ∧
        ((receive s f now).1).connectRetryCount = s.connectRetryCount + 1 ∧
        ((receive s f now).1).ssn = 0 ∧ ((receive s f now).1).rsn = 0 ∧
        ((receive s f now).1).k = 0 ∧ ((receive s f now).1).sendList = [] ∧
        (receive s f now).2 = []) ∧
      (f.APCI2 ≤ s.ssn → pssn ≠ s.rsn → s.reconnectHandler ≠ none →
        receive s f now = ({s with t3 := true, k := (s.ssn : Int) - (f.APCI2 : Int)}, [])) ∧
      (s.ssn < f.APCI2 → s.reconnectHandler = none →
        ((receive s f now).1).reconnectHandler = some 3 ∧
        ((receive s f now).1).connectRetryCount = s.connectRetryCount + 1 ∧
        ((receive s f now).1).ssn = 0 ∧ ((receive s f now).1).rsn = 0 ∧
        ((receive s f now).1).k = 0 ∧ ((receive s f now).1).sendList = [] ∧
        (receive s f now).2 = []) ∧
      (s.ssn < f.APCI2 → s.reconnectHandler ≠ none → pssn = s.rsn →
        receive s f now = ({s with t3 := true, rsn := s.rsn + 1, w := s.w + 1}, [])) ∧
      (s.ssn < f.APCI2 → s.reconnectHandler ≠ none → pssn ≠ s.rsn →
        receive s f now = ({s with t3 := true}, []))) := by
  constructor
  · intro hS
    refine ⟨fun hk => ?_, fun hbad hrh => ?_, fun hbad hrh => ?_⟩
    · simp only [receive, hS]
      rw [if_neg (by simpa using Nat.not_lt.mpr hk)]
    · simp only [receive, hS]
      rw [if_pos (by simpa using hbad)]
      simp [bad_frame_path, disconnect, hrh]
    · simp only [receive, hS]
      rw [if_pos (by simpa using hbad)]
      simp [bad_frame_path, hrh]
  · intro pssn hA
    refine ⟨fun hk hm => receive_accept_I s f pssn now hA hm hk,
      fun hk hm hrh => ?_, fun hk hm hrh => ?_,
      fun hbad hrh => ?_, fun hbad hrh hm => ?_, fun hbad hrh hm => ?_⟩
    · simp only [receive, hA]
      rw [if_neg (by simpa using Nat.not_lt.mpr hk)]
      rw [if_neg (by simpa using fun h => hm h.symm)]
      simp [bad_frame_path, disconnect, hrh]
    · simp only [receive, hA]
      rw [if_neg (by simpa using Nat.not_lt.mpr hk)]
      rw [if_neg (by simpa using fun h => hm h.symm)]
      simp [bad_frame_path, hrh]
    · simp only [receive, hA]
      rw [if_pos (by simpa using hbad)]
      by_cases hm : s.rsn = pssn
      · rw [if_pos (by simpa using hm)]
        simp [bad_frame_path, disconnect, hrh]
      · rw [if_neg (by simpa using hm)]
        simp [bad_frame_path, disconnect, hrh]
    · simp only [receive, hA]
      rw [if_pos (by simpa using hbad)]
      rw [if_pos (by simpa using hm.symm)]
      simp [bad_frame_path, hrh]
    · simp only [receive, hA]
      rw [if_pos (by simpa using hbad)]
      rw [if_neg (by simpa using fun h => hm h.symm)]
      simp [bad_frame_path, hrh]

/-- Session with a positive ssn, for the valid-acknowledgement side of the
C3 witness. -/
def c3valid : Session := { ssn := 5, reconnectHandler := none }

/-- S-frame with rsn 3 within the window of c3valid. -/
def c3validframe : Frame := { APCI1 := Apci1.S, APCI2 := 3, ASDU := none }

/-- Session with wrapped ssn, a pending reconnect, and rsn 4, for the
I-frame side of the C3 witness. -/
def c3isession : Session := { ssn := 0, rsn := 4, w := 2, reconnectHandler := some 0 }

/-- I-frame whose peer ssn matches c3isession.rsn while its peer rsn 32767
is numerically above the wrapped local ssn. -/
def c3iframe : Frame :=
  { APCI1 := Apci1.num 4, APCI2 := 32767,
    ASDU := some { TYP := 1, Cause := Cause.spont, SQ := 0, StartAddress := 0, data := [] } }

/-- Witness for C3: the amended law at concrete inputs - a valid S-frame
acknowledgement, a wrapped S-frame that is fatal, and a wrapped I-frame
with matching peer ssn that is dropped with rsn and w still incremented. -/
theorem iec104_seq_check_plain_difference_witness :
    receive c3valid c3validframe 0 =
      ({c3valid with t3 := true,
                     k := (c3valid.ssn : Int) - (c3validframe.APCI2 : Int)}, []) ∧
    ((receive c3session c3frame 0).1).reconnectHandler = some 3 ∧
    receive c3isession c3iframe 0 =
      ({c3isession with t3 := true, rsn := c3isession.rsn + 1,
                        w := c3isession.w + 1}, []) :=
  ⟨((iec104_seq_check_plain_difference c3valid c3validframe 0).1 rfl).1 (by decide),
   (((iec104_seq_check_plain_difference c3session c3frame 0).1 rfl).2.1 (by decide) rfl).1,
   ((iec104_seq_check_plain_difference c3isession c3iframe 0).2 4 rfl).2.2.2.2.1
     (by decide) (by decide) rfl⟩

/-- Started-like session with no reconnect pending. -/
def c4session : Session := { reconnectHandler := none, t1 := true, onLine := true }

/-- C4 counterexample: receiving STOPDT_ACT replies STOPDT_CON and calls
disconnect() with its default reconnect=False, so the session is marked
user-canceled and no +3 s reconnect timer is armed, contrary to the claim. -/
theorem iec104_stopdt_no_reconnect_timer_cex :
    ((receive c4session (init_frame_u UFrame.STOPDT_ACT) 0).1).reconnectHandler = none ∧
    ((receive c4session (init_frame_u UFrame.STOPDT_ACT) 0).1).userCanceled = true ∧
    (receive c4session (init_frame_u UFrame.STOPDT_ACT) 0).2 =
      [init_frame_u UFrame.STOPDT_CON] := by decide

/-- C4 (amended): only failure-driven calls to disconnect (reconnect=true)
with no reconnect pending arm the one-shot +3 s reconnect timer and count
the attempt; the STOPDT_ACT path replies STOPDT_CON and then calls
disconnect with reconnect=false, which marks the stop user-canceled and
leaves no reconnect timer armed. -/
theorem iec104_reconnect_timer_policy (s : Session) (now : Nat) :
    (s.reconnectHandler = none →
      (disconnect s true).reconnectHandler = some 3 ∧
      (disconnect s true).connectRetryCount = s.connectRetryCount + 1) ∧
    ((receive s (init_frame_u UFrame.STOPDT_ACT) now).1).userCanceled = true ∧
    ((receive s (init_frame_u UFrame.STOPDT_ACT) now).1).reconnectHandler = none := by
  refine ⟨fun h => by simp [disconnect, h], ?_, ?_⟩
  · simp only [receive, init_frame_u, handle_u, send_frame]
    split_ifs <;> simp [disconnect]
  · simp only [receive, init_frame_u, handle_u, send_frame]
    split_ifs <;> simp [disconnect]

/-- Witness for C4: the amended reconnect policy at a concrete session. -/
theorem iec104_reconnect_timer_policy_witness :
    (disconnect c4session true).reconnectHandler = some 3 ∧
    ((receive c4session (init_frame_u UFrame.STOPDT_ACT) 0).1).userCanceled = true :=
  ⟨((iec104_reconnect_timer_policy c4session 0).1 rfl).1,
   (iec104_reconnect_timer_policy c4session 0).2.1⟩

/-- Session awaiting a confirmation: T1 armed, one act I-frame queued. -/
def c5session : Session :=
  { ssn := 5, t1 := true, reconnectHandler := none,
    sendList := [init_frame_i 5 0 TYP.C_RD_NA_1 Cause.act] }

/-- Valid S-frame acknowledging up to rsn 3. -/
def c5frame : Frame := { APCI1 := Apci1.S, APCI2 := 3, ASDU := none }

/-- C5 counterexample: a valid S-frame leaves T1 armed, the send_list
untouched and emits nothing; the claim says T1 is stopped and the next
send_list item delivered. -/
theorem iec104_sframe_no_t1_stop_cex :
    c5session.t1 = true ∧ c5session.sendList ≠ [] ∧
    ((receive c5session c5frame 0).1).t1 = true ∧
    ((receive c5session c5frame 0).1).sendList = c5session.sendList ∧
    (receive c5session c5frame 0).2 = [] := by decide

/-- C5 (amended): a received S-frame with a valid peer rsn only updates k
to the plain difference ssn - rsn_peer; T1, send_list, w and rsn are left
unchanged and nothing is written.  Stopping T1 and delivering the next
send_list item with check=false happen only in check_to_send, which the
session runs for U confirmations (and for actcon/req I-frames), never for
S-frames. -/
theorem iec104_sframe_updates_only_k (s : Session) (f : Frame) (now : Nat)
    (hS : f.APCI1 = Apci1.S) (hk : f.APCI2 ≤ s.ssn) :
    ((receive s f now).1).t1 = s.t1 ∧
    ((receive s f now).1).sendList = s.sendList ∧
    ((receive s f now).1).w = s.w ∧
    ((receive s f now).1).rsn = s.rsn ∧
    (receive s f now).2 = [] ∧
    ((receive s f now).1).k = (s.ssn : Int) - (f.APCI2 : Int) ∧
    (∀ (hd : Frame) (rest : List Frame), s.sendList = hd :: rest →
      ∀ u, (u = UFrame.STARTDT_CON ∨ u = UFrame.TESTFR_CON ∨ u = UFrame.STOPDT_CON) →
        check_to_send s (some (init_frame_u u)) =
          send_frame {s with t1 := false, sendList := rest} rest.head? false) := by
  have hr : receive s f now =
      ({s with t3 := true, k := (s.ssn : Int) - (f.APCI2 : Int)}, []) := by
    simp only [receive, hS]
    rw [if_neg (by simpa using Nat.not_lt.mpr hk)]
  rw [hr]
  refine ⟨rfl, rfl, rfl, rfl, rfl, rfl, ?_⟩
  intro hd rest hL u hu
  simp only [check_to_send, hL]
  rw [if_pos (by rcases hu with h | h | h <;> subst h <;> simp [init_frame_u])]

/-- Witness for C5: the amended S-frame law and the check_to_send delivery
equation at concrete inputs. -/
theorem iec104_sframe_updates_only_k_witness :
    ((receive c5session c5frame 0).1).k = (c5session.ssn : Int) - (c5frame.APCI2 : Int) ∧
    check_to_send c5session (some (init_frame_u UFrame.STARTDT_CON)) =
      send_frame {c5session with t1 := false, sendList := []}
        ([] : List Frame).head? false :=
  ⟨(iec104_sframe_updates_only_k c5session c5frame 0 rfl (by decide)).2.2.2.2.2.1,
   (iec104_sframe_updates_only_k c5session c5frame 0 rfl (by decide)).2.2.2.2.2.2
     (init_frame_i 5 0 TYP.C_RD_NA_1 Cause.act) [] rfl UFrame.STARTDT_CON (Or.inl rfl)⟩

/-- Session that has already retried five times, with a pending reconnect
handler about to fire and an interrogation cycle that is not yet due. -/
def c6session : Session :=
  { connectRetryCount := 5, reconnectHandler := some 0, sendList := [],
    lastCallAllTimeEnd := some 1000, collInterval := 900 }

/-- C6 counterexample: completing the connection (reconnect success) and
then receiving STARTDT_CON - reaching Started - leaves
connect_retry_count at 5; the claim says it is cleared to zero there. -/
theorem iec104_retry_count_not_cleared_cex :
    ((reconnect_success c6session).1).connectRetryCount = 5 ∧
    ((receive ((reconnect_success c6session).1)
        (init_frame_u UFrame.STARTDT_CON) 1000).1).connectRetryCount = 5 ∧
    (5 : Nat) ≠ 0 := by decide

/-- C6 (amended): connect_retry_count is incremented exactly when a
failure-driven disconnect finds no reconnect pending, and it is never
reset: a disconnect with a reconnect already pending, the successful
completion of a connection attempt, and the receipt of STARTDT_CON
(reaching Started) all leave it unchanged. -/
theorem iec104_retry_count_monotone (s : Session) (now : Nat) :
    (s.reconnectHandler = none →
      (disconnect s true).connectRetryCount = s.connectRetryCount + 1) ∧
    (s.reconnectHandler ≠ none →
      (disconnect s true).connectRetryCount = s.connectRetryCount) ∧
    ((reconnect_success s).1.connectRetryCount = s.connectRetryCount) ∧
    (s.sendList = [] →
      ((receive s (init_frame_u UFrame.STARTDT_CON) now).1).connectRetryCount =
        s.connectRetryCount) := by
  refine ⟨fun h => by simp [disconnect, h], fun h => by simp [disconnect, h], ?_,
    fun hsl => ?_⟩
  · simp only [reconnect_success, send_frame, init_frame_u]
    split_ifs <;> simp
  · simp only [receive, init_frame_u, handle_u]
    have h1 := run_task_retry {s with t3 := true} now (by simpa using hsl)
    have h2 := check_to_send_ucon_retry (run_task {s with t3 := true} now).state
      { APCI1 := Apci1.U UFrame.STARTDT_CON, APCI2 := 0, ASDU := none } rfl h1.2
    rw [h2, h1.1]

/-- Session with five retries and no pending reconnect, for the C6
witness. -/
def c6wsession : Session := { connectRetryCount := 5, reconnectHandler := none }

/-- Witness for C6: the amended retry-count law at concrete sessions. -/
theorem iec104_retry_count_monotone_witness :
    (disconnect c6wsession true).connectRetryCount = 6 ∧
    ((reconnect_success c6wsession).1).connectRetryCount = 5 ∧
    ((receive c6wsession (init_frame_u UFrame.STARTDT_CON) 0).1).connectRetryCount = 5 :=
  ⟨by have h := (iec104_retry_count_monotone c6wsession 0).1 rfl; simpa using h,
   by have h := (iec104_retry_count_monotone c6wsession 0).2.2.1; simpa using h,
   by have h := (iec104_retry_count_monotone c6wsession 0).2.2.2 rfl; simpa using h⟩

/-- C7: on every accepted I-frame (peer ssn matching rsn, peer rsn within
the window, ASDU present, no S-frame queued - S-frames are never queued by
the send path - and w < W before the frame), reaching w = W emits exactly
one S-frame, carrying the post-increment rsn, and resets w to 0; below the
threshold no S-frame is emitted; in all cases w < W holds again after the
step, so the number of I-frames received between two sent acknowledgements
never exceeds W = 8. -/
theorem iec104_w_threshold_ack (s : Session) (f : Frame) (a : Asdu) (pssn now : Nat)
    (hA : f.APCI1 = Apci1.num pssn) (hseq : pssn = s.rsn) (hk : f.APCI2 ≤ s.ssn)
    (hasdu : f.ASDU = some a) (hw : s.w < 8)
    (hsl : ∀ g ∈ s.sendList, isS g = false) :
    (s.w + 1 = 8 →
      ((receive s f now).2.filter isS) =
        [{ APCI1 := Apci1.S, APCI2 := s.rsn + 1, ASDU := none }] ∧
      ((receive s f now).1).w = 0) ∧
    (s.w + 1 < 8 →
      ((receive s f now).2.filter isS) = [] ∧
      (((receive s f now).1).w = 0 ∨ ((receive s f now).1).w = s.w + 1)) ∧
    ((receive s f now).1).w < 8 := by
  have hnonS : isS f = false := by simp [isS, hA]
  rw [receive_accept_I s f pssn now hA hseq hk]
  have hm := handle_i_wS {s with t3 := true, k := (s.ssn : Int) - (f.APCI2 : Int),
                                 rsn := s.rsn + 1, w := s.w + 1} f a now hasdu hnonS hsl
  refine ⟨fun h8 => hm.1 (le_of_eq h8.symm), fun h8 => hm.2 h8, ?_⟩
  by_cases h8 : 8 ≤ s.w + 1
  · have h0 := (hm.1 h8).2
    omega
  · have h8x : s.w + 1 < 8 := by omega
    rcases (hm.2 h8x).2 with h | h <;> omega

/-- Session that has received seven unacknowledged I-frames. -/
def c7session : Session := { ssn := 2, rsn := 7, w := 7, reconnectHandler := none }

/-- Accepted spontaneous I-frame that makes w reach W. -/
def c7frame : Frame :=
  { APCI1 := Apci1.num 7, APCI2 := 0,
    ASDU := some { TYP := 1, Cause := Cause.spont, SQ := 0, StartAddress := 0, data := [] } }

/-- Witness for C7: the eighth received I-frame triggers exactly one
S-frame carrying the updated rsn and resets w. -/
theorem iec104_w_threshold_ack_witness :
    ((receive c7session c7frame 0).2.filter isS) =
      [{ APCI1 := Apci1.S, APCI2 := c7session.rsn + 1, ASDU := none }] ∧
    ((receive c7session c7frame 0).1).w = 0 :=
  (iec104_w_threshold_ack c7session c7frame
    { TYP := 1, Cause := Cause.spont, SQ := 0, StartAddress := 0, data := [] } 7 0
    rfl rfl (by decide) rfl (by decide) (by simp [c7session])).1 rfl

/-- C8: whenever run_task finds last_call_all_time_end + coll_interval ≤
now, it sets last_call_all_time_begin to now and submits to the send path,
in this order, the clock-sync (C_CS_NA_1), general-interrogation
(C_IC_NA_1) and counter-interrogation (C_CI_NA_1) I-frames, all with
cause act; it then cancels the prior task handler, when one exists,
before arming the one-shot re-entry timer. -/
theorem iec104_run_task_cycle (s : Session) (e now : Nat)
    (hE : s.lastCallAllTimeEnd = some e) (hNow : e + s.collInterval ≤ now) :
    ((run_task s now).submitted.map (fun f => f.ASDU.map (fun a => (a.TYP, a.Cause))) =
      [some (TYP.C_CS_NA_1, Cause.act), some (TYP.C_IC_NA_1, Cause.act),
       some (TYP.C_CI_NA_1, Cause.act)]) ∧
    (run_task s now).state.lastCallAllTimeBegin = some now ∧
    (run_task s now).state.taskHandler =
      some ((e : Int) + (s.collInterval : Int) - (now : Int)) ∧
    (s.taskHandler ≠ none →
      (run_task s now).taskEvents =
        [TaskEvent.cancel, TaskEvent.arm ((e : Int) + (s.collInterval : Int) - (now : Int))]) ∧
    (s.taskHandler = none →
      (run_task s now).taskEvents =
        [TaskEvent.arm ((e : Int) + (s.collInterval : Int) - (now : Int))]) := by
  simp only [run_task, hE, Option.getD_some]
  rw [if_pos (by simpa using hNow)]
  refine ⟨by simp [init_frame_i], ?_, ?_, fun hT => ?_, fun hT => ?_⟩
  · rw [(send_frame_sched _ _ _).1, (send_frame_sched _ _ _).1, (send_frame_sched _ _ _).1]
  · rw [(send_frame_sched _ _ _).2.2, (send_frame_sched _ _ _).2.2,
      (send_frame_sched _ _ _).2.2]
  · rw [(send_frame_sched _ _ _).2.1, (send_frame_sched _ _ _).2.1,
      (send_frame_sched _ _ _).2.1, (send_frame_sched _ _ _).2.2,
      (send_frame_sched _ _ _).2.2, (send_frame_sched _ _ _).2.2]
    simp [Option.isSome_iff_ne_none, hT]
  · rw [(send_frame_sched _ _ _).2.1, (send_frame_sched _ _ _).2.1,
      (send_frame_sched _ _ _).2.1, (send_frame_sched _ _ _).2.2,
      (send_frame_sched _ _ _).2.2, (send_frame_sched _ _ _).2.2]
    simp [hT]

/-- Session whose interrogation cycle is overdue at now = 20, with a prior
task handler armed. -/
def c8session : Session :=
  { lastCallAllTimeEnd := some 0, collInterval := 10, taskHandler := some 0,
    reconnectHandler := none }

/-- Witness for C8: the overdue cycle at now = 20 submits the three act
frames in order and cancels the prior handler before re-arming. -/
theorem iec104_run_task_cycle_witness :
    ((run_task c8session 20).submitted.map (fun f => f.ASDU.map (fun a => (a.TYP, a.Cause))) =
      [some (TYP.C_CS_NA_1, Cause.act), some (TYP.C_IC_NA_1, Cause.act),
       some (TYP.C_CI_NA_1, Cause.act)]) ∧
    (run_task c8session 20).taskEvents = [TaskEvent.cancel, TaskEvent.arm (-10)] :=
  ⟨(iec104_run_task_cycle c8session 0 20 rfl (by decide)).1,
   by have h := (iec104_run_task_cycle c8session 0 20 rfl (by decide)).2.2.2.1 (by decide)
      simpa using h⟩

/-- C10: every call to disconnect - user-initiated or failure-driven -
stops T1, T2 and T3, zeroes ssn, rsn, k and w, and clears send_list. -/
theorem iec104_disconnect_resets_state (s : Session) (r : Bool) :
    (disconnect s r).t1 = false ∧ (disconnect s r).t2 = false ∧
    (disconnect s r).t3 = false ∧ (disconnect s r).ssn = 0 ∧
    (disconnect s r).rsn = 0 ∧ (disconnect s r).k = 0 ∧
    (disconnect s r).w = 0 ∧ (disconnect s r).sendList = [] := by
  simp [disconnect]

end IEC104

/-- C9: the successful path of create_term publishes the term data on the
literal channel string CHANNEL:TERM_ADD" (trailing double-quote), which
differs from the CHANNEL:TERM_ADD channel that update_term uses for the
same term-add event. -/
theorem api_term_add_channel_mismatch :
    (ApiServer.create_term false "5" "1" "payload").status = 200 ∧
    (ApiServer.create_term false "5" "1" "payload").publishes =
      [("CHANNEL:TERM_ADD\"", "payload")] ∧
    "CHANNEL:TERM_ADD\"" ≠ ApiServer.update_term_add_channel := by decide
